import Mathlib

/-!
Verification of the layout engine and hit classifier of the Custom-SDL3-Window
program (src/main.c). SDL float arithmetic is modelled by exact rational
arithmetic (the values involved are small integers and exactly representable
scale factors); C float-to-int conversion truncates toward zero and is modelled
by ratTrunc; floorf and ceilf are modelled by the integer floor and ceiling on ℚ.
-/

/-- An SDL_FRect: axis-aligned rectangle with float (here: rational) fields. -/
structure FRect where
  x : ℚ
  y : ℚ
  w : ℚ
  h : ℚ
deriving DecidableEq, Repr

/-- The global `layout` struct of main.c: four rectangles plus the scale. -/
structure Layout where
  window : FRect
  background : FRect
  titleBar : FRect
  clientArea : FRect
  scale : ℚ
deriving DecidableEq, Repr

/-- An SDL_Color (r, g, b, a bytes). -/
structure SDLColor where
  r : ℕ
  g : ℕ
  b : ℕ
  a : ℕ
deriving DecidableEq, Repr

/-- The `palette` typedef of main.c. -/
structure Palette where
  border : SDLColor
  background : SDLColor
  titleBar : SDLColor
deriving DecidableEq, Repr

/-- The global `theme` struct of main.c. -/
structure Theme where
  light : Palette
  dark : Palette
  useLight : Bool
deriving DecidableEq, Repr

/-- The static initializer of the `theme` global in main.c. -/
def initTheme : Theme :=
  { light := { border := ⟨200, 200, 200, 255⟩
               background := ⟨227, 227, 227, 255⟩
               titleBar := ⟨255, 255, 255, 255⟩ }
    dark := { border := ⟨55, 55, 55, 255⟩
              background := ⟨27, 27, 27, 255⟩
              titleBar := ⟨0, 0, 0, 255⟩ }
    useLight := true }

/-- `updateLayout` of main.c as a function of the values it reads: the window
pixel size `w × h` (SDL_GetWindowSizeInPixels), the display scale `scale`
(SDL_GetWindowDisplayScale), and the shadow texture dimensions `sl`
(shadow.left->w) and `sb` (shadow.bottom->h). The sequence of assignments of
the C function is mirrored by the `let` chain. -/
def updateLayout (w h : ℤ) (scale : ℚ) (sl sb : ℤ) : Layout :=
  let window : FRect := ⟨0, 0, (w : ℚ), (h : ℚ)⟩
  let background : FRect :=
    ⟨(sl : ℚ), (sb : ℚ), (w : ℚ) - 2 * (sl : ℚ), (h : ℚ) - 2 * (sb : ℚ)⟩
  let rh : ℚ := background.h - 2 * (⌊scale⌋ : ℚ)
  let titleBar : FRect :=
    ⟨background.x + (⌊scale⌋ : ℚ), background.y + (⌊scale⌋ : ℚ),
     background.w - 2 * (⌊scale⌋ : ℚ), ((⌈30 * scale⌉ : ℤ) : ℚ)⟩
  let rh2 : ℚ := rh - (titleBar.h + (⌊scale⌋ : ℚ))
  let clientArea : FRect :=
    ⟨titleBar.x, titleBar.y + titleBar.h + (⌊scale⌋ : ℚ), titleBar.w, rh2⟩
  { window := window, background := background, titleBar := titleBar,
    clientArea := clientArea, scale := scale }

/-- The ten SDL_HitTestResult values that hitTest can return. -/
inductive Region where
  | topLeft
  | top
  | topRight
  | left
  | right
  | bottomLeft
  | bottom
  | bottomRight
  | draggable
  | normal
deriving DecidableEq, Repr

/-- C float-to-int conversion: truncation toward zero. -/
def ratTrunc (q : ℚ) : ℤ := if q < 0 then ⌈q⌉ else ⌊q⌋

/-- SDL_PointInRectFloat: inclusive containment of a float point in an
SDL_FRect. -/
def pointInRectFloat (px py : ℚ) (r : FRect) : Prop :=
  r.x ≤ px ∧ px ≤ r.x + r.w ∧ r.y ≤ py ∧ py ≤ r.y + r.h

instance (px py : ℚ) (r : FRect) : Decidable (pointInRectFloat px py r) := by
  unfold pointInRectFloat; infer_instance

/-- `hitTest` of main.c. The cursor arrives as an SDL_Point `(ax, ay)` with
integer logical coordinates; the code scales it to the float point
`pos = (ax*scale, ay*scale)`, truncates that to the int point `(x, y)`, and
compares the ints against float edge bands of the background rectangle. The
title-bar test uses the untruncated float point `pos`. -/
def hitTest (l : Layout) (ax ay : ℤ) : Region :=
  let scale := l.scale
  let bx := l.background.x
  let byv := l.background.y
  let bw := l.background.w
  let bh := l.background.h
  let posx : ℚ := (ax : ℚ) * scale
  let posy : ℚ := (ay : ℚ) * scale
  let x : ℤ := ratTrunc posx
  let y : ℤ := ratTrunc posy
  let edgeTol : ℤ := ⌈2 * scale⌉
  let cornerTol : ℤ := ⌈8 * scale⌉
  if bx - (edgeTol : ℚ) ≤ (x : ℚ) ∧ (x : ℚ) ≤ bx + (edgeTol : ℚ) then
    if (y : ℚ) < byv + (cornerTol : ℚ) then Region.topLeft
    else if byv + bh - (cornerTol : ℚ) ≤ (y : ℚ) then Region.bottomLeft
    else Region.left
  else if bx + bw - (edgeTol : ℚ) ≤ (x : ℚ) ∧ (x : ℚ) ≤ bx + bw + (edgeTol : ℚ) then
    if (y : ℚ) < byv + (cornerTol : ℚ) then Region.topRight
    else if byv + bh - (cornerTol : ℚ) ≤ (y : ℚ) then Region.bottomRight
    else Region.right
  else if byv - (edgeTol : ℚ) ≤ (y : ℚ) ∧ (y : ℚ) ≤ byv + (edgeTol : ℚ) then
    Region.top
  else if byv + bh - (edgeTol : ℚ) ≤ (y : ℚ) ∧ (y : ℚ) ≤ byv + bh + (edgeTol : ℚ) then
    Region.bottom
  else if pointInRectFloat posx posy l.titleBar then
    Region.draggable
  else
    Region.normal

/-- The mutable program state of main.c touched by the event loop: the layout,
the theme, and the two flags. -/
structure AppState where
  layout : Layout
  theme : Theme
  appShouldExit : Bool
  windowShouldBeRedrawn : Bool
deriving DecidableEq, Repr

/-- `updateLayout` as a state transformer: it overwrites the layout wholesale
from its inputs and sets the dirty flag. -/
def updateLayoutS (st : AppState) (w h : ℤ) (scale : ℚ) (sl sb : ℤ) : AppState :=
  { st with layout := updateLayout w h scale sl sb, windowShouldBeRedrawn := true }

/-- The events handleEvent switches on. The size/scale events carry the window
size and display scale that updateLayout re-reads from SDL when handling them;
the theme event carries whether SDL_GetSystemTheme reports dark; `other t`
stands for any SDL event type `t` outside the five handled cases. -/
inductive Event where
  | quit
  | windowExposed
  | windowPixelSizeChanged (w h : ℤ) (scale : ℚ)
  | windowDisplayScaleChanged (w h : ℤ) (scale : ℚ)
  | systemThemeChanged (dark : Bool)
  | other (t : ℕ)
deriving DecidableEq, Repr

/-- `handleEvent` of main.c, parametrized by the fixed shadow texture
dimensions `sl`, `sb` that updateLayout reads. -/
def handleEvent (sl sb : ℤ) (st : AppState) (e : Event) : AppState :=
  match e with
  | Event.quit => { st with appShouldExit := true }
  | Event.windowExposed => { st with windowShouldBeRedrawn := true }
  | Event.windowPixelSizeChanged w h scale => updateLayoutS st w h scale sl sb
  | Event.windowDisplayScaleChanged w h scale => updateLayoutS st w h scale sl sb
  | Event.systemThemeChanged dark =>
      { st with theme := { st.theme with useLight := !dark },
                windowShouldBeRedrawn := true }
  | Event.other _ => st

/-- The state right before the main loop: main has called updateLayout once
(setting the dirty flag) and queried the system theme. -/
def initState (w h : ℤ) (scale : ℚ) (sl sb : ℤ) (dark : Bool) : AppState :=
  { layout := updateLayout w h scale sl sb
    theme := { initTheme with useLight := !dark }
    appShouldExit := false
    windowShouldBeRedrawn := true }

/-- The states the single-threaded event loop can reach: an initial state for
some startup readings, closed under handleEvent. -/
inductive Reachable (sl sb : ℤ) : AppState → Prop where
  | init : ∀ (w h : ℤ) (scale : ℚ) (dark : Bool),
      Reachable sl sb (initState w h scale sl sb dark)
  | step : ∀ (st : AppState) (e : Event),
      Reachable sl sb st → Reachable sl sb (handleEvent sl sb st e)

/-- Interval containment of rectangles: every point of `inner` between its
corners lies between the corners of `outer`. -/
abbrev rectInside (inner outer : FRect) : Prop :=
  outer.x ≤ inner.x ∧ outer.y ≤ inner.y ∧
  inner.x + inner.w ≤ outer.x + outer.w ∧ inner.y + inner.h ≤ outer.y + outer.h

/-- A coordinate lies within `tol` of the value `v` (distance at most `tol`). -/
abbrev withinTol (c v : ℚ) (tol : ℤ) : Prop := |c - v| ≤ (tol : ℚ)

/-- The layout the program computes for an 800×600-pixel window at scale 1
with the 16-pixel shadow margins of the bundled assets. -/
def demoLayout : Layout := updateLayout 800 600 1 16 16

/-- The layout the program computes at scale 1.5 for the same 800×600-pixel
window (the scale-change scenario). -/
def demoLayoutScaled : Layout := updateLayout 800 600 (3 / 2) 16 16

/-- The band test of hitTest's first branch: the truncated scaled x coordinate
lies within edgeTol = ceil(2*scale) of backgroundRect's left edge. -/
abbrev leftEdgeBand (l : Layout) (ax : ℤ) : Prop :=
  l.background.x - ((⌈2 * l.scale⌉ : ℤ) : ℚ) ≤ ((ratTrunc ((ax : ℚ) * l.scale)) : ℚ) ∧
  ((ratTrunc ((ax : ℚ) * l.scale)) : ℚ) ≤ l.background.x + ((⌈2 * l.scale⌉ : ℤ) : ℚ)

/-- The top-corner test of hitTest: the truncated scaled y coordinate is below
backgroundRect.y + cornerTol (the code's one-sided condition). -/
abbrev nearTopCode (l : Layout) (ay : ℤ) : Prop :=
  ((ratTrunc ((ay : ℚ) * l.scale)) : ℚ) < l.background.y + ((⌈8 * l.scale⌉ : ℤ) : ℚ)

/-- The bottom-corner test of hitTest: the truncated scaled y coordinate is at
least backgroundRect.y + backgroundRect.h − cornerTol. -/
abbrev nearBottomCode (l : Layout) (ay : ℤ) : Prop :=
  l.background.y + l.background.h - ((⌈8 * l.scale⌉ : ℤ) : ℚ) ≤
    ((ratTrunc ((ay : ℚ) * l.scale)) : ℚ)

/-- The nesting property the spec asserts of every layout produced by
updateLayout with the program's 16-pixel shadow margins. -/
abbrev nestedLayoutProp (w h : ℤ) (s : ℚ) : Prop :=
  let L := updateLayout w h s 16 16
  rectInside L.background L.window ∧
  rectInside L.titleBar L.background ∧
  rectInside L.clientArea L.background ∧
  L.clientArea.x = L.titleBar.x ∧
  L.clientArea.w = L.titleBar.w ∧
  L.clientArea.y = L.titleBar.y + L.titleBar.h + ((⌊s⌋ : ℤ) : ℚ)

/-- clientArea.h as computed by updateLayout: background height minus title-bar
height minus three border widths. -/
lemma updateLayout_client_h (w h : ℤ) (s : ℚ) (sl sb : ℤ) :
    (updateLayout w h s sl sb).clientArea.h =
      (updateLayout w h s sl sb).background.h -
        (updateLayout w h s sl sb).titleBar.h -
        3 * ((⌊(updateLayout w h s sl sb).scale⌋ : ℤ) : ℚ) := by
  simp only [updateLayout]
  ring







/-- C3: after every recompute, clientRect.height equals backgroundRect.height
minus titleBarRect.height minus three border widths floor(scale); since
updateLayout is the only operation that writes the layout, this holds in every
reachable state of the event loop. -/
theorem clientArea_height_invariant (sl sb : ℤ) (st : AppState)
    (hst : Reachable sl sb st) :
    st.layout.clientArea.h =
      st.layout.background.h - st.layout.titleBar.h -
        3 * ((⌊st.layout.scale⌋ : ℤ) : ℚ) := by
  induction hst with
  | init w h s dark =>
      simpa [initState] using updateLayout_client_h w h s sl sb
  | step st e hre ih =>
      cases e with
      | quit => simpa [handleEvent] using ih
      | windowExposed => simpa [handleEvent] using ih
      | windowPixelSizeChanged w h s =>
          simpa [handleEvent, updateLayoutS] using updateLayout_client_h w h s sl sb
      | windowDisplayScaleChanged w h s =>
          simpa [handleEvent, updateLayoutS] using updateLayout_client_h w h s sl sb
      | systemThemeChanged dark => simpa [handleEvent] using ih
      | other t => simpa [handleEvent] using ih

/-- Witness for C3: the startup state of an 800×600 window at scale 1 is
reachable and satisfies the client-height equation (535 = 568 − 30 − 3). -/
theorem clientArea_height_invariant_witness :
    Reachable 16 16 (initState 800 600 1 16 16 false) ∧
      (initState 800 600 1 16 16 false).layout.clientArea.h =
        (initState 800 600 1 16 16 false).layout.background.h -
          (initState 800 600 1 16 16 false).layout.titleBar.h -
          3 * ((⌊(initState 800 600 1 16 16 false).layout.scale⌋ : ℤ) : ℚ) :=
  ⟨Reachable.init 800 600 1 false,
   clientArea_height_invariant 16 16 _ (Reachable.init 800 600 1 false)⟩

/-- C6: recomputing the layout twice with identical inputs yields the identical
state: the second updateLayout overwrites the layout with the same value and
the dirty flag is already set. -/
theorem updateLayout_idempotent (st : AppState) (w h : ℤ) (s : ℚ) (sl sb : ℤ) :
    updateLayoutS (updateLayoutS st w h s sl sb) w h s sl sb =
      updateLayoutS st w h s sl sb := rfl

/-- C7: at scale 1 in an 800×600 window with 16-pixel shadow margins, the
tolerances are edgeTol = 2 and cornerTol = 8, the cursor x = 8 misses the left
edge band [14, 18], and hitTest classifies the point (8, 8) as Normal. -/
theorem hitTest_demo_normal :
    ⌈2 * demoLayout.scale⌉ = 2 ∧ ⌈8 * demoLayout.scale⌉ = 8 ∧
    demoLayout.background.x - 2 = 14 ∧ demoLayout.background.x + 2 = 18 ∧
    ¬ (demoLayout.background.x - 2 ≤ 8 ∧ (8 : ℚ) ≤ demoLayout.background.x + 2) ∧
    hitTest demoLayout 8 8 = Region.normal := by
  norm_num [hitTest, demoLayout, updateLayout, ratTrunc, pointInRectFloat]

/-- C8: every call to updateLayout sets windowShouldBeRedrawn, whatever the
previous state (and in particular whether or not the layout changed). -/
theorem updateLayout_sets_dirty (st : AppState) (w h : ℤ) (s : ℚ) (sl sb : ℤ) :
    (updateLayoutS st w h s sl sb).windowShouldBeRedrawn = true := rfl

/-- C9: handleEvent leaves the whole program state unchanged on any event
outside the five handled types (quit, exposed, pixel-size, display-scale,
system-theme). -/
theorem handleEvent_other_noop (sl sb : ℤ) (st : AppState) (t : ℕ) :
    handleEvent sl sb st (Event.other t) = st := rfl

/-- C10: no operation writes the palettes: in every reachable state the light
and dark palettes still hold their static initializer values; event handlers
only ever write the useLight flag of the theme. -/
theorem theme_palettes_constant (sl sb : ℤ) (st : AppState)
    (hst : Reachable sl sb st) :
    st.theme.light = initTheme.light ∧ st.theme.dark = initTheme.dark := by
  induction hst with
  | init w h s dark => simp [initState]
  | step st e hre ih => cases e <;> simpa [handleEvent, updateLayoutS] using ih

/-- Witness for C10: a reachable state (startup with dark mode on) whose
palettes equal the initializer values. -/
theorem theme_palettes_constant_witness :
    Reachable 16 16 (initState 800 600 1 16 16 true) ∧
      (initState 800 600 1 16 16 true).theme.light = initTheme.light ∧
      (initState 800 600 1 16 16 true).theme.dark = initTheme.dark :=
  ⟨Reachable.init 800 600 1 true,
   theme_palettes_constant 16 16 _ (Reachable.init 800 600 1 true)⟩

/-- C1 (counterexample): at window pixel size 1×1 and scale 1 — positive
inputs — the title bar is not contained in the background rectangle (its
bottom edge 17 + 30 = 47 exceeds the background bottom 16 + (1 − 32) = −15),
so the nesting property fails as universally stated. -/
theorem nestedLayoutProp_counterexample :
    (0 : ℤ) < 1 ∧ (0 : ℚ) < 1 ∧ ¬ nestedLayoutProp 1 1 1 := by
  norm_num [nestedLayoutProp, rectInside, updateLayout]

/-- C1 (amended): for every positive window pixel size and positive scale such
that the height also leaves room for the title bar
(h ≥ 2·16 + floor(scale) + ceil(30·scale)), the layout produced by
updateLayout satisfies all five nesting relations of the claim. -/
theorem updateLayout_nested_rects (w h : ℤ) (s : ℚ) (_hw : 0 < w) (_hh : 0 < h)
    (hs : 0 < s) (hfit : 32 + ⌊s⌋ + ⌈30 * s⌉ ≤ h) :
    nestedLayoutProp w h s := by
  have hb0 : (0 : ℤ) ≤ ⌊s⌋ := Int.floor_nonneg.mpr hs.le
  have hT1 : (0 : ℤ) < ⌈30 * s⌉ := Int.ceil_pos.mpr (by positivity)
  have hbq : (0 : ℚ) ≤ ((⌊s⌋ : ℤ) : ℚ) := by exact_mod_cast hb0
  have hTq : (0 : ℚ) < ((⌈30 * s⌉ : ℤ) : ℚ) := by exact_mod_cast hT1
  have hfq : (32 : ℚ) + ((⌊s⌋ : ℤ) : ℚ) + ((⌈30 * s⌉ : ℤ) : ℚ) ≤ (h : ℚ) := by
    exact_mod_cast hfit
  simp only [nestedLayoutProp, rectInside, updateLayout]
  refine ⟨⟨?_, ?_, ?_, ?_⟩, ⟨?_, ?_, ?_, ?_⟩, ⟨?_, ?_, ?_, ?_⟩, ?_, ?_, ?_⟩ <;>
    push_cast <;> linarith

/-- Witness for C1 (amended): the 800×600 window at scale 1 satisfies the
hypotheses (600 ≥ 32 + 1 + 30) and the nesting property. -/
theorem updateLayout_nested_rects_witness :
    (0 : ℤ) < 800 ∧ (0 : ℤ) < 600 ∧ (0 : ℚ) < 1 ∧
      32 + ⌊(1 : ℚ)⌋ + ⌈30 * (1 : ℚ)⌉ ≤ 600 ∧ nestedLayoutProp 800 600 1 :=
  ⟨by norm_num, by norm_num, by norm_num, by norm_num,
   updateLayout_nested_rects 800 600 1 (by norm_num) (by norm_num) (by norm_num)
     (by norm_num)⟩

/-- C4: hitTest is a pure total function of the point and the layout (its type
is Layout → ℤ → ℤ → Region, touching no state): for every cursor point it
returns exactly one result, and that result is one of the ten Region values. -/
theorem hitTest_total_region (l : Layout) (ax ay : ℤ) :
    (∃! r : Region, hitTest l ax ay = r) ∧
      hitTest l ax ay ∈ [Region.topLeft, Region.top, Region.topRight,
        Region.left, Region.right, Region.bottomLeft, Region.bottom,
        Region.bottomRight, Region.draggable, Region.normal] := by
  refine ⟨⟨hitTest l ax ay, rfl, fun r hr => hr.symm⟩, ?_⟩
  cases h : hitTest l ax ay <;> simp

/-- C5: for every positive scale, updateLayout sets the title-bar height to
ceil(30·scale); concretely, changing the scale from 1 to 1.5 at a fixed
800×600 pixel size raises it from 30 to 45, shrinks the client height, and
every such recompute raises the dirty flag. -/
theorem titleBar_height_scale (w h : ℤ) (s : ℚ) (_hs : 0 < s) (sl sb : ℤ) :
    (updateLayout w h s sl sb).titleBar.h = ((⌈30 * s⌉ : ℤ) : ℚ) ∧
    demoLayout.titleBar.h = 30 ∧
    demoLayoutScaled.titleBar.h = 45 ∧
    demoLayoutScaled.clientArea.h < demoLayout.clientArea.h ∧
    ∀ st : AppState,
      (updateLayoutS st 800 600 (3 / 2) 16 16).windowShouldBeRedrawn = true := by
  refine ⟨rfl, ?_, ?_, ?_, fun st => rfl⟩ <;>
    norm_num [demoLayout, demoLayoutScaled, updateLayout]

/-- Witness for C5: the scale 1 is positive and the conclusion holds at the
800×600 window with 16-pixel shadow margins. -/
theorem titleBar_height_scale_witness :
    (0 : ℚ) < 1 ∧
      ((updateLayout 800 600 1 16 16).titleBar.h = ((⌈30 * (1 : ℚ)⌉ : ℤ) : ℚ) ∧
       demoLayout.titleBar.h = 30 ∧
       demoLayoutScaled.titleBar.h = 45 ∧
       demoLayoutScaled.clientArea.h < demoLayout.clientArea.h ∧
       ∀ st : AppState,
         (updateLayoutS st 800 600 (3 / 2) 16 16).windowShouldBeRedrawn = true) :=
  ⟨by norm_num, titleBar_height_scale 800 600 1 (by norm_num) 16 16⟩

/-- C2 (counterexample): at scale 1 in the 800×600 window, the cursor (16, 0)
has its scaled x within edgeTolerance of the left edge, its scaled y at
distance 16 from the top edge and 584 from the bottom edge — within neither
cornerTolerance band (8) — yet hitTest returns TopLeft, not Left: the code's
corner test `y < by + cornerTol` is one-sided, not a distance test. -/
theorem hitTest_corner_tol_counterexample :
    withinTol ((16 : ℚ) * demoLayout.scale) demoLayout.background.x
        ⌈2 * demoLayout.scale⌉ ∧
    ¬ withinTol ((0 : ℚ) * demoLayout.scale) demoLayout.background.y
        ⌈8 * demoLayout.scale⌉ ∧
    ¬ withinTol ((0 : ℚ) * demoLayout.scale)
        (demoLayout.background.y + demoLayout.background.h)
        ⌈8 * demoLayout.scale⌉ ∧
    hitTest demoLayout 16 0 = Region.topLeft := by
  norm_num [withinTol, demoLayout, updateLayout, hitTest, ratTrunc,
    pointInRectFloat, abs_le]

/-- C2 (amended): for every cursor point whose truncated scaled x lies in the
left edge band [bx − edgeTol, bx + edgeTol], hitTest returns TopLeft exactly
when the truncated scaled y is below backgroundRect.y + cornerTolerance,
BottomLeft exactly when it is not and is at least
backgroundRect.y + backgroundRect.h − cornerTolerance, and Left otherwise. -/
theorem hitTest_left_band_cases (l : Layout) (ax ay : ℤ)
    (hband : leftEdgeBand l ax) :
    (hitTest l ax ay = Region.topLeft ↔ nearTopCode l ay) ∧
    (hitTest l ax ay = Region.bottomLeft ↔
      ¬ nearTopCode l ay ∧ nearBottomCode l ay) ∧
    (hitTest l ax ay = Region.left ↔
      ¬ nearTopCode l ay ∧ ¬ nearBottomCode l ay) := by
  simp only [leftEdgeBand] at hband
  simp only [hitTest]
  rw [if_pos hband]
  by_cases h1 : ((ratTrunc ((ay : ℚ) * l.scale)) : ℚ) <
      l.background.y + ((⌈8 * l.scale⌉ : ℤ) : ℚ)
  · simp [nearTopCode, nearBottomCode, h1]
  · by_cases h2 : l.background.y + l.background.h - ((⌈8 * l.scale⌉ : ℤ) : ℚ) ≤
        ((ratTrunc ((ay : ℚ) * l.scale)) : ℚ)
    · simp [nearTopCode, nearBottomCode, h1, h2]
    · simp [nearTopCode, nearBottomCode, h1, h2]

/-- Witness for C2 (amended): the cursor (16, 100) at scale 1 lies in the left
edge band and is classified by the three one-sided cases (here: Left). -/
theorem hitTest_left_band_cases_witness :
    leftEdgeBand demoLayout 16 ∧
      ((hitTest demoLayout 16 100 = Region.topLeft ↔ nearTopCode demoLayout 100) ∧
       (hitTest demoLayout 16 100 = Region.bottomLeft ↔
         ¬ nearTopCode demoLayout 100 ∧ nearBottomCode demoLayout 100) ∧
       (hitTest demoLayout 16 100 = Region.left ↔
         ¬ nearTopCode demoLayout 100 ∧ ¬ nearBottomCode demoLayout 100)) :=
  ⟨by norm_num [leftEdgeBand, demoLayout, updateLayout, ratTrunc],
   hitTest_left_band_cases demoLayout 16 100
     (by norm_num [leftEdgeBand, demoLayout, updateLayout, ratTrunc])⟩
